import Mathlib

/-!
# admin-app: fund administration gateway (`main.go`)

A shallow embedding of `main.go`.  Every call the program makes to an external
collaborator (operating system, file system, wallet, ledger gateway, HTTP
framework, UUID generator) is an oracle supplied by the caller of the model, and
every such call is recorded, in program order, in a list of `Event`s.

Go semantics relied upon:
* `log.Fatalf` prints and then calls `os.Exit(1)`; `os.Exit` ends the process at
  once and deferred calls are not run;
* a deferred call runs when the surrounding function returns;
* a call returning `(value, error)` is an `Except String value`; a call returning
  only `error` is an `Option String` (`none` is `nil`).
-/

namespace FundAdmin

/-! ## Data model -/

/-- Go struct `CreateFundRequest`, the bound body of `POST /funds`. -/
structure CreateFundRequest where
  Name : String
  InceptionDate : String
  deriving DecidableEq, Repr

/-- An X.509 identity as built by `gateway.NewX509Identity(mspId, cert, key)`. -/
structure Identity where
  mspId : String
  cert : String
  key : String
  deriving DecidableEq, Repr

/-- The file-system wallet, seen as the labelled identities it holds. -/
structure Wallet where
  entries : List (String × Identity)
  deriving DecidableEq, Repr

/-- Method `wallet.Exists(label)`: is there an entry under the label. -/
def Wallet.Exists (w : Wallet) (label : String) : Bool :=
  w.entries.any (fun e => e.1 == label)

/-- The contract handle: `SubmitTransaction` and `EvaluateTransaction` answer with
the payload or with an error. -/
structure Contract where
  SubmitTransaction : String → List String → Except String String
  EvaluateTransaction : String → List String → Except String String

/-- Go struct `AdminApp` (the `Gw` and `Network` handles carry no behaviour that a
handler uses). -/
structure AdminApp where
  Wallet : Wallet
  Contract : Contract

/-- The part of `gin.Context` the handlers read: the outcome of `c.BindJSON` on the
request body and the path parameters `c.Param`. -/
structure Context where
  BindJSON : Except String CreateFundRequest
  Param : String → String

/-- A JSON response body: `gin.H` with one key, or a bare string. -/
inductive Body where
  | obj (key value : String)
  | str (s : String)
  deriving DecidableEq, Repr

/-- Calls to external collaborators, in the order the program makes them. -/
inductive Event where
  | setenv (key value : String)
  | newFileSystemWallet (path : String)
  | walletExists (label : String)
  | logPrintln (msg : String)
  | readFile (path : String)
  | readDir (path : String)
  | walletPut (label : String) (identity : Identity)
  | connect (ccpPath label : String)
  | gwClose
  | getNetwork (name : String)
  | getContract (name : String)
  | routerRun
  | newV4 (id : String)
  | submitTransaction (fn : String) (args : List String)
  | evaluateTransaction (fn : String) (args : List String)
  | json (status : Nat) (body : Body)
  | logFatalf (msg : String)
  deriving DecidableEq, Repr

/-- How a piece of code ends: it returns to its caller, or the process has been
ended by `os.Exit(code)`. -/
inductive Exit where
  | returned
  | osExit (code : Nat)
  deriving DecidableEq, Repr

/-- The observable result of running a piece of code: the calls made, how it ended,
and how many UUIDs the process has drawn so far. -/
structure Run where
  events : List Event
  exit : Exit
  draws : Nat
  deriving DecidableEq, Repr

/-- Is the event a `SubmitTransaction` call. -/
def Event.isSubmit : Event → Bool
  | .submitTransaction _ _ => true
  | _ => false

/-- Is the event an `EvaluateTransaction` call. -/
def Event.isEvaluate : Event → Bool
  | .evaluateTransaction _ _ => true
  | _ => false

/-- Is the event a read of the credential source (`ioutil.ReadFile`,
`ioutil.ReadDir`). -/
def Event.isCredentialRead : Event → Bool
  | .readFile _ => true
  | .readDir _ => true
  | _ => false

/-- The responses written with `c.JSON`, in order. -/
def responses : List Event → List (Nat × Body)
  | [] => []
  | .json status body :: rest => (status, body) :: responses rest
  | _ :: rest => responses rest

/-- The transactions passed to `SubmitTransaction`, in order. -/
def submissions : List Event → List (String × List String)
  | [] => []
  | .submitTransaction fn args :: rest => (fn, args) :: submissions rest
  | _ :: rest => submissions rest

/-! ## Validators (`main.go` 189-195) -/

/-- Go `validateDate`. -/
def validateDate (_date : String) : Bool :=
  true

/-- Go `validateCreateFundRequest`. -/
def validateCreateFundRequest (_r : CreateFundRequest) : Bool :=
  true

/-! ## Request handlers (`main.go` 89-120) -/

/-- Body of Go `PostFundEndpoint`, with the validator it calls at line 98 as a
parameter.  `NewV4 k` is the string `uuid.NewV4().String()` yields on the
process's `k`-th draw. -/
def PostFundEndpointWith (validate : CreateFundRequest → Bool) (NewV4 : Nat → String)
    (a : AdminApp) (c : Context) (draws : Nat) : Run :=
  match c.BindJSON with
  | .error _ =>
    ⟨[.json 400 (.obj "error" "missing required parameter")], .returned, draws⟩
  | .ok createFundRequest =>
    let validRequest := validate createFundRequest
    let rejected : List Event :=
      if !validRequest then
        [.json 400 (.obj "error" "improperly formatted inceptionDate")]
      else []
    let fundId := NewV4 draws
    let args := [fundId, createFundRequest.Name, createFundRequest.InceptionDate]
    let called : List Event :=
      rejected ++ [.newV4 fundId, .submitTransaction "CreateFund" args]
    match a.Contract.SubmitTransaction "CreateFund" args with
    | .error err =>
      ⟨called ++ [.logFatalf ("Faiiled to submit transaction: " ++ err)],
        .osExit 1, draws + 1⟩
    | .ok _ =>
      ⟨called ++ [.json 200 (.obj "fundId" fundId)], .returned, draws + 1⟩

/-- Go `PostFundEndpoint`: the body above with `validateCreateFundRequest`. -/
def PostFundEndpoint (NewV4 : Nat → String) (a : AdminApp) (c : Context)
    (draws : Nat) : Run :=
  PostFundEndpointWith validateCreateFundRequest NewV4 a c draws

/-- Go `GetFundByIdEndpoint`. -/
def GetFundByIdEndpoint (a : AdminApp) (c : Context) (draws : Nat) : Run :=
  let fundId := c.Param "id"
  match a.Contract.EvaluateTransaction "QueryFundById" [fundId] with
  | .error err =>
    ⟨[.evaluateTransaction "QueryFundById" [fundId],
      .logFatalf ("Failed to evaluate transaction: " ++ err)], .osExit 1, draws⟩
  | .ok result =>
    ⟨[.evaluateTransaction "QueryFundById" [fundId], .json 200 (.str result)],
      .returned, draws⟩

/-- Go `GetInvestorsForFundEndpoint`: an empty body. -/
def GetInvestorsForFundEndpoint (_c : Context) (draws : Nat) : Run :=
  ⟨[], .returned, draws⟩

/-! ## Identity provisioning (`main.go` 40-45, 142-183) -/

/-- The credential source and the wallet's backing store: `ioutil.ReadFile`,
`ioutil.ReadDir` (the entry names of a directory) and the error, if any, with
which `wallet.Put` answers. -/
structure Host where
  ReadFile : String → Except String String
  ReadDir : String → Except String (List String)
  PutErr : Option String

/-- Method `wallet.Put(label, identity)`: on success the identity is stored under
the label, replacing an earlier entry; on failure the wallet is left as it was. -/
def Wallet.Put (h : Host) (w : Wallet) (label : String) (identity : Identity) :
    Option String × Wallet :=
  match h.PutErr with
  | some err => (some err, w)
  | none => (none, ⟨(label, identity) :: w.entries.filter (fun e => e.1 != label)⟩)

/-- Value of `credPath` in `populateWallet`. -/
def credPath : String :=
  "../../../fabric-samples/test-network/organizations/peerOrganizations/" ++
    "org1.example.com/users/User1@org1.example.com/msp"

/-- Value of `certPath` in `populateWallet`. -/
def certPath : String :=
  credPath ++ "/signcerts/cert.pem"

/-- Value of `keyDir` in `populateWallet`. -/
def keyDir : String :=
  credPath ++ "/keystore"

/-- What `populateWallet` leaves behind: the returned `error`, the wallet, and the
calls made. -/
structure Populated where
  err : Option String
  wallet : Wallet
  events : List Event
  deriving DecidableEq, Repr

/-- Go `populateWallet`.  `filepath.Join(keyDir, name)` of a directory entry name
is `keyDir`, a slash and the name. -/
def populateWallet (h : Host) (wallet : Wallet) : Populated :=
  let start : List Event :=
    [.logPrintln "============ Populating wallet ============", .readFile certPath]
  match h.ReadFile certPath with
  | .error err => ⟨some err, wallet, start⟩
  | .ok cert =>
    let listed := start ++ [.readDir keyDir]
    match h.ReadDir keyDir with
    | .error err => ⟨some err, wallet, listed⟩
    | .ok files =>
      if hlen : files.length ≠ 1 then
        ⟨some "keystore folder should have contain one file", wallet, listed⟩
      else
        let keyPath := keyDir ++ "/" ++ files.get ⟨0, by omega⟩
        let loaded := listed ++ [.readFile keyPath]
        match h.ReadFile keyPath with
        | .error err => ⟨some err, wallet, loaded⟩
        | .ok key =>
          let identity : Identity := ⟨"Org1MSP", cert, key⟩
          let stored := Wallet.Put h wallet "appUser" identity
          ⟨stored.1, stored.2, loaded ++ [.walletPut "appUser" identity]⟩

/-- Lines 40-45 of Go `main`: populate the wallet unless it already holds
`appUser`.  The returned `error` is the one `main` treats as fatal. -/
def mainProvision (h : Host) (wallet : Wallet) : Populated :=
  if !wallet.Exists "appUser" then
    let p := populateWallet h wallet
    ⟨p.err, p.wallet, .walletExists "appUser" :: p.events⟩
  else
    ⟨none, wallet, [.walletExists "appUser"]⟩

/-! ## Serving and start-up (`main.go` 29-87) -/

/-- The routes registered in `main`. -/
inductive Route where
  | postFunds
  | getFundById
  | getFundAction
  deriving DecidableEq, Repr

/-- An inbound request: the route it matches and its context. -/
structure Request where
  route : Route
  ctx : Context

/-- The handler registered for a route (lines 82-84). -/
def dispatch (NewV4 : Nat → String) (a : AdminApp) (r : Request) (draws : Nat) : Run :=
  match r.route with
  | .postFunds => PostFundEndpoint NewV4 a r.ctx draws
  | .getFundById => GetFundByIdEndpoint a r.ctx draws
  | .getFundAction => GetInvestorsForFundEndpoint r.ctx draws

/-- The serving loop behind `router.Run()`: requests are handled one after the
other for as long as the process lives; once a handler has ended the process no
further request is handled. -/
def serve (NewV4 : Nat → String) (a : AdminApp) : List Request → Nat → Run
  | [], draws => ⟨[], .returned, draws⟩
  | r :: rest, draws =>
    let handled := dispatch NewV4 a r draws
    match handled.exit with
    | .osExit code => ⟨handled.events, .osExit code, handled.draws⟩
    | .returned =>
      let later := serve NewV4 a rest handled.draws
      ⟨handled.events ++ later.events, later.exit, later.draws⟩

/-- Everything outside the program that `main` meets: the answers of its start-up
calls, the UUID source, and the requests that arrive while `router.Run()` serves. -/
structure Env where
  SetenvErr : Option String
  NewFileSystemWallet : Except String Wallet
  host : Host
  ConnectErr : Option String
  GetNetworkErr : Option String
  GetContract : Option Contract
  NewV4 : Nat → String
  requests : List Request

/-- Value of `ccpPath` in `main`. -/
def ccpPath : String :=
  "../../../fabric-samples/test-network/organizations/peerOrganizations/" ++
    "org1.example.com/connection-org1.yaml"

/-- Lines 68-86 of Go `main`: what runs between `defer gw.Close()` and the end of
the function body. -/
def mainConnected (env : Env) (wallet : Wallet) : Run :=
  match env.GetNetworkErr with
  | some err =>
    ⟨[.getNetwork "mychannel", .logFatalf ("Failed to get network: " ++ err)],
      .osExit 1, 0⟩
  | none =>
    match env.GetContract with
    | none =>
      ⟨[.getNetwork "mychannel", .getContract "admin",
        .logFatalf "The contract could not be retrieved"], .osExit 1, 0⟩
    | some contract =>
      let adminApp : AdminApp := ⟨wallet, contract⟩
      let served := serve env.NewV4 adminApp env.requests 0
      ⟨[.getNetwork "mychannel", .getContract "admin", .routerRun] ++ served.events,
        served.exit, served.draws⟩

/-- Go `main`.  The deferred `gw.Close()` runs when the body after it returns, and
does not run when that body ends the process through `log.Fatalf`. -/
def main (env : Env) : Run :=
  let e0 : List Event := [.setenv "DISCOVERY_AS_LOCALHOST" "true"]
  match env.SetenvErr with
  | some err =>
    ⟨e0 ++ [.logFatalf
      ("Error setting DISCOVERY_AS_LOCALHOST environemnt variable: " ++ err)],
      .osExit 1, 0⟩
  | none =>
    let e1 := e0 ++ [.newFileSystemWallet "wallet"]
    match env.NewFileSystemWallet with
    | .error err =>
      ⟨e1 ++ [.logFatalf ("Failed to create wallet: " ++ err)], .osExit 1, 0⟩
    | .ok wallet0 =>
      let p := mainProvision env.host wallet0
      let e2 := e1 ++ p.events
      match p.err with
      | some err =>
        ⟨e2 ++ [.logFatalf ("Failed to populate wallet contents: " ++ err)],
          .osExit 1, 0⟩
      | none =>
        let wallet := p.wallet
        let e3 := e2 ++ [.connect ccpPath "appUser"]
        match env.ConnectErr with
        | some err =>
          ⟨e3 ++ [.logFatalf ("Failed to connect to gateway: " ++ err)], .osExit 1, 0⟩
        | none =>
          let body := mainConnected env wallet
          match body.exit with
          | .osExit code => ⟨e3 ++ body.events, .osExit code, body.draws⟩
          | .returned => ⟨e3 ++ body.events ++ [.gwClose], .returned, body.draws⟩

/-! ## The date format named by the specification -/

/-- Number of days of a month of the proleptic Gregorian calendar. -/
def daysInMonth (year month : Nat) : Nat :=
  if month = 2 then
    if year % 4 = 0 ∧ (year % 100 ≠ 0 ∨ year % 400 = 0) then 29 else 28
  else if month = 4 ∨ month = 6 ∨ month = 9 ∨ month = 11 then 30
  else 31

/-- Value of a run of decimal digits, if every character is one. -/
def digitsValue (cs : List Char) : Option Nat :=
  cs.foldl (fun acc c =>
    match acc with
    | none => none
    | some n => if c.isDigit then some (10 * n + (c.toNat - 48)) else none) (some 0)

/-- The specification's "parses as a calendar date in the fixed `YYYY-MM-DD`
format": four digits, a dash, two digits, a dash, two digits, naming a month from
1 to 12 and a day that this month has.  The program contains no such check; the
predicate is used only to state what the specification asks of the validator. -/
def isCalendarDate (s : String) : Bool :=
  let cs := s.toList
  cs.length == 10 && cs.getD 4 ' ' == '-' && cs.getD 7 ' ' == '-' &&
    match digitsValue (cs.take 4), digitsValue ((cs.drop 5).take 2),
      digitsValue (cs.drop 8) with
    | some y, some m, some d => 1 ≤ m && m ≤ 12 && 1 ≤ d && d ≤ daysInMonth y m
    | _, _, _ => false

/-! ## Concrete collaborators used in the examples -/

/-- A UUID source whose first two draws differ. -/
def sampleNewV4 : Nat → String :=
  fun k => ["4f1c2a9e-0000-4000-8000-000000000001",
    "9a2e7b10-0000-4000-8000-000000000002"].getD k "00000000-0000-4000-8000-000000000000"

/-- A ledger on which every call succeeds. -/
def committingContract : Contract :=
  ⟨fun _ _ => .ok "", fun _ _ => .ok "fund"⟩

/-- A ledger on which every call fails. -/
def failingContract : Contract :=
  ⟨fun _ _ => .error "timeout", fun _ _ => .error "unknown fund"⟩

/-- An application whose ledger commits. -/
def committingApp : AdminApp :=
  ⟨⟨[]⟩, committingContract⟩

/-- An application whose ledger is unavailable. -/
def failingApp : AdminApp :=
  ⟨⟨[]⟩, failingContract⟩

/-- A request whose body binds to `Fund A`, `2024-01-01` and whose path names fund
`f1`. -/
def sampleContext : Context :=
  ⟨.ok ⟨"Fund A", "2024-01-01"⟩, fun _ => "f1"⟩

/-- A credential source with a certificate and the given keystore listing. -/
def sampleHost (keystore : List String) : Host :=
  ⟨fun path => .ok ("pem:" ++ path), fun _ => .ok keystore, none⟩

/-- An environment in which every start-up call succeeds, the wallet is empty and
the keystore holds one key. -/
def sampleEnv : Env :=
  ⟨none, .ok ⟨[]⟩, sampleHost ["priv_sk"], none, none, some committingContract,
    sampleNewV4, []⟩

/-- The environment above, except that `gw.GetNetwork` answers with an error. -/
def noChannelEnv : Env :=
  ⟨none, .ok ⟨[]⟩, sampleHost ["priv_sk"], none, some "channel not found",
    some committingContract, sampleNewV4, []⟩

/-- The environment above, except that `network.GetContract` answers `nil`. -/
def noContractEnv : Env :=
  ⟨none, .ok ⟨[]⟩, sampleHost ["priv_sk"], none, none, none, sampleNewV4, []⟩

/-- A wallet that already holds `appUser`. -/
def provisionedWallet : Wallet :=
  ⟨[("appUser", ⟨"Org1MSP", "cert", "key"⟩)]⟩

/-! # Theorems -/

/-! ## Handler lemmas -/

/-- Events of `PostFundEndpointWith` once the body has bound and the ledger has
answered with an error. -/
theorem PostFundEndpointWith_error (validate : CreateFundRequest → Bool)
    (NewV4 : Nat → String) (a : AdminApp) (c : Context) (draws : Nat)
    (r : CreateFundRequest) (err : String) (hb : c.BindJSON = .ok r)
    (hs : a.Contract.SubmitTransaction "CreateFund"
      [NewV4 draws, r.Name, r.InceptionDate] = .error err) :
    PostFundEndpointWith validate NewV4 a c draws =
      ⟨(if !validate r then
          [.json 400 (.obj "error" "improperly formatted inceptionDate")] else []) ++
        [.newV4 (NewV4 draws),
          .submitTransaction "CreateFund" [NewV4 draws, r.Name, r.InceptionDate]] ++
        [.logFatalf ("Faiiled to submit transaction: " ++ err)], .osExit 1, draws + 1⟩ := by
  simp only [PostFundEndpointWith, hb, hs]

/-- Events of `PostFundEndpointWith` once the body has bound and the ledger has
answered without error. -/
theorem PostFundEndpointWith_ok (validate : CreateFundRequest → Bool)
    (NewV4 : Nat → String) (a : AdminApp) (c : Context) (draws : Nat)
    (r : CreateFundRequest) (payload : String) (hb : c.BindJSON = .ok r)
    (hs : a.Contract.SubmitTransaction "CreateFund"
      [NewV4 draws, r.Name, r.InceptionDate] = .ok payload) :
    PostFundEndpointWith validate NewV4 a c draws =
      ⟨(if !validate r then
          [.json 400 (.obj "error" "improperly formatted inceptionDate")] else []) ++
        [.newV4 (NewV4 draws),
          .submitTransaction "CreateFund" [NewV4 draws, r.Name, r.InceptionDate]] ++
        [.json 200 (.obj "fundId" (NewV4 draws))], .returned, draws + 1⟩ := by
  simp only [PostFundEndpointWith, hb, hs]

/-! ## C2: the validator -/

/-- C2 (as stated, refuted): `validateCreateFundRequest` reports success on a
request with an empty name and on a request whose inception date is not a
calendar date, so success does not imply a non-empty name and a parseable
date. -/
theorem validateCreateFundRequest_accepts_malformed :
    validateCreateFundRequest ⟨"", "2024-01-01"⟩ = true ∧
    validateCreateFundRequest ⟨"A", "not-a-date"⟩ = true ∧
    isCalendarDate "not-a-date" = false ∧
    ¬ (∀ r : CreateFundRequest, validateCreateFundRequest r = true →
        r.Name ≠ "" ∧ isCalendarDate r.InceptionDate = true) := by
  refine ⟨rfl, rfl, by decide, ?_⟩
  intro h
  exact (h ⟨"", "2024-01-01"⟩ rfl).1 rfl

/-- C2 (amended): `validateCreateFundRequest` reports success for every request and
`validateDate` for every string; neither inspects its argument. -/
theorem validateCreateFundRequest_always_true (r : CreateFundRequest) (date : String) :
    validateCreateFundRequest r = true ∧ validateDate date = true :=
  ⟨rfl, rfl⟩

/-! ## C4: a committed creation -/

/-- C4: when the body binds to a valid request with name `n` and date `d` and the
submission commits, the handler first draws the id, then submits exactly
`CreateFund(id, n, d)`, then writes `200 {fundId: id}` with the same id, and
returns. -/
theorem PostFundEndpoint_commit (NewV4 : Nat → String) (a : AdminApp) (c : Context)
    (draws : Nat) (r : CreateFundRequest) (payload : String)
    (hbind : c.BindJSON = .ok r) (hvalid : validateCreateFundRequest r = true)
    (hcommit : a.Contract.SubmitTransaction "CreateFund"
      [NewV4 draws, r.Name, r.InceptionDate] = .ok payload) :
    (PostFundEndpoint NewV4 a c draws).events =
      [.newV4 (NewV4 draws),
        .submitTransaction "CreateFund" [NewV4 draws, r.Name, r.InceptionDate],
        .json 200 (.obj "fundId" (NewV4 draws))] ∧
    (PostFundEndpoint NewV4 a c draws).exit = .returned := by
  rw [PostFundEndpoint, PostFundEndpointWith_ok _ _ _ _ _ r payload hbind hcommit]
  simp [hvalid]

/-- C4 at `Fund A`, `2024-01-01` against a ledger that commits. -/
theorem PostFundEndpoint_commit_witness :
    (PostFundEndpoint sampleNewV4 committingApp sampleContext 0).events =
      [.newV4 (sampleNewV4 0),
        .submitTransaction "CreateFund" [sampleNewV4 0, "Fund A", "2024-01-01"],
        .json 200 (.obj "fundId" (sampleNewV4 0))] ∧
    (PostFundEndpoint sampleNewV4 committingApp sampleContext 0).exit = .returned :=
  PostFundEndpoint_commit sampleNewV4 committingApp sampleContext 0
    ⟨"Fund A", "2024-01-01"⟩ "" rfl rfl rfl

/-! ## C10: one submission per run -/

/-- C10: whatever the request, the validator's verdict and the ledger's answer, a
run of the handler calls `SubmitTransaction` at most once; this holds for
`PostFundEndpoint` in particular. -/
theorem PostFundEndpoint_submits_at_most_once (validate : CreateFundRequest → Bool)
    (NewV4 : Nat → String) (a : AdminApp) (c : Context) (draws : Nat) :
    (PostFundEndpoint NewV4 a c draws).events.countP Event.isSubmit ≤ 1 ∧
    (PostFundEndpointWith validate NewV4 a c draws).events.countP Event.isSubmit ≤ 1 := by
  have key : ∀ v : CreateFundRequest → Bool,
      (PostFundEndpointWith v NewV4 a c draws).events.countP Event.isSubmit ≤ 1 := by
    intro v
    unfold PostFundEndpointWith
    cases hb : c.BindJSON with
    | error e => simp [Event.isSubmit]
    | ok r =>
      cases hs : a.Contract.SubmitTransaction "CreateFund"
          [NewV4 draws, r.Name, r.InceptionDate] with
      | error e => cases hv : v r <;> simp [hs, hv, Event.isSubmit, List.countP_cons]
      | ok p => cases hv : v r <;> simp [hs, hv, Event.isSubmit, List.countP_cons]
  exact ⟨key _, key _⟩

/-! ## Provisioning lemmas -/

/-- The calls `populateWallet` makes never include `router.Run`. -/
theorem routerRun_not_mem_populateWallet (h : Host) (wallet : Wallet) :
    Event.routerRun ∉ (populateWallet h wallet).events := by
  unfold populateWallet
  cases h.ReadFile certPath with
  | error e => simp
  | ok cert =>
    cases h.ReadDir keyDir with
    | error e => simp
    | ok files =>
      by_cases hlen : files.length ≠ 1
      · simp [hlen]
      · simp only [hlen, dite_false]
        split <;> simp

/-- The calls of the provisioning step never include `router.Run`. -/
theorem routerRun_not_mem_mainProvision (h : Host) (wallet : Wallet) :
    Event.routerRun ∉ (mainProvision h wallet).events := by
  unfold mainProvision
  cases hex : wallet.Exists "appUser"
  · simpa using routerRun_not_mem_populateWallet h wallet
  · simp

/-- After `populateWallet` has returned without error the wallet holds `appUser`. -/
theorem populateWallet_stores_appUser (h : Host) (wallet : Wallet)
    (hok : (populateWallet h wallet).err = none) :
    (populateWallet h wallet).wallet.Exists "appUser" = true := by
  unfold populateWallet at hok ⊢
  cases hc : h.ReadFile certPath with
  | error e => simp [hc] at hok
  | ok cert =>
    cases hd : h.ReadDir keyDir with
    | error e => simp [hc, hd] at hok
    | ok files =>
      by_cases hlen : files.length ≠ 1
      · simp [hc, hd, hlen] at hok
      · simp only [hc, hd, hlen, dite_false] at hok ⊢
        split at hok
        · simp at hok
        · rename_i key hk
          simp only [hk]
          cases hp : h.PutErr with
          | some e => simp [Wallet.Put, hp] at hok
          | none => simp [Wallet.Put, hp, Wallet.Exists]

/-! ## C1: a ledger error inside a handler -/

/-- C1 (as stated, refuted): against a ledger that answers with an error, both
handlers end the process with `os.Exit(1)` and write no response; a `GET` that
arrives after the failed `POST` is not served. -/
theorem handler_ledger_error_exits_process :
    (PostFundEndpoint sampleNewV4 failingApp sampleContext 0).exit = .osExit 1 ∧
    responses (PostFundEndpoint sampleNewV4 failingApp sampleContext 0).events = [] ∧
    (GetFundByIdEndpoint failingApp sampleContext 0).exit = .osExit 1 ∧
    responses (GetFundByIdEndpoint failingApp sampleContext 0).events = [] ∧
    (serve sampleNewV4 failingApp
        [⟨.postFunds, sampleContext⟩, ⟨.getFundById, sampleContext⟩] 0).events =
      [.newV4 (sampleNewV4 0),
        .submitTransaction "CreateFund" [sampleNewV4 0, "Fund A", "2024-01-01"],
        .logFatalf "Faiiled to submit transaction: timeout"] := by
  decide

/-- C1 (amended): the ledger's answer decides how a handler ends.  When
`SubmitTransaction` (resp. `EvaluateTransaction`) answers without error the
handler returns to the server and exactly one response, a 200, has been written;
when it answers with an error the handler ends the process with `os.Exit(1)`
and no response has been written. -/
theorem handler_exit_follows_ledger_answer (NewV4 : Nat → String) (a : AdminApp)
    (c : Context) (draws : Nat) :
    (∀ r : CreateFundRequest, c.BindJSON = .ok r →
      (∀ payload, a.Contract.SubmitTransaction "CreateFund"
          [NewV4 draws, r.Name, r.InceptionDate] = .ok payload →
        (PostFundEndpoint NewV4 a c draws).exit = .returned ∧
        responses (PostFundEndpoint NewV4 a c draws).events =
          [(200, .obj "fundId" (NewV4 draws))]) ∧
      (∀ err, a.Contract.SubmitTransaction "CreateFund"
          [NewV4 draws, r.Name, r.InceptionDate] = .error err →
        (PostFundEndpoint NewV4 a c draws).exit = .osExit 1 ∧
        responses (PostFundEndpoint NewV4 a c draws).events = [])) ∧
    (∀ payload, a.Contract.EvaluateTransaction "QueryFundById" [c.Param "id"] =
        .ok payload →
      (GetFundByIdEndpoint a c draws).exit = .returned ∧
      responses (GetFundByIdEndpoint a c draws).events = [(200, .str payload)]) ∧
    (∀ err, a.Contract.EvaluateTransaction "QueryFundById" [c.Param "id"] =
        .error err →
      (GetFundByIdEndpoint a c draws).exit = .osExit 1 ∧
      responses (GetFundByIdEndpoint a c draws).events = []) := by
  refine ⟨fun r hb => ⟨fun payload hs => ?_, fun err hs => ?_⟩,
    fun payload he => ?_, fun err he => ?_⟩
  · rw [PostFundEndpoint, PostFundEndpointWith_ok _ _ _ _ _ r payload hb hs]
    simp [validateCreateFundRequest, responses]
  · rw [PostFundEndpoint, PostFundEndpointWith_error _ _ _ _ _ r err hb hs]
    simp [validateCreateFundRequest, responses]
  · simp [GetFundByIdEndpoint, he, responses]
  · simp [GetFundByIdEndpoint, he, responses]

/-- C1 (amended) at a committing and at a failing ledger. -/
theorem handler_exit_follows_ledger_answer_witness :
    ((PostFundEndpoint sampleNewV4 committingApp sampleContext 0).exit = .returned ∧
      responses (PostFundEndpoint sampleNewV4 committingApp sampleContext 0).events =
        [(200, .obj "fundId" (sampleNewV4 0))]) ∧
    ((PostFundEndpoint sampleNewV4 failingApp sampleContext 0).exit = .osExit 1 ∧
      responses (PostFundEndpoint sampleNewV4 failingApp sampleContext 0).events = []) ∧
    ((GetFundByIdEndpoint committingApp sampleContext 0).exit = .returned ∧
      responses (GetFundByIdEndpoint committingApp sampleContext 0).events =
        [(200, .str "fund")]) ∧
    ((GetFundByIdEndpoint failingApp sampleContext 0).exit = .osExit 1 ∧
      responses (GetFundByIdEndpoint failingApp sampleContext 0).events = []) :=
  ⟨((handler_exit_follows_ledger_answer sampleNewV4 committingApp sampleContext 0).1
      ⟨"Fund A", "2024-01-01"⟩ rfl).1 "" rfl,
    ((handler_exit_follows_ledger_answer sampleNewV4 failingApp sampleContext 0).1
      ⟨"Fund A", "2024-01-01"⟩ rfl).2 "timeout" rfl,
    (handler_exit_follows_ledger_answer sampleNewV4 committingApp sampleContext 0).2.1
      "fund" rfl,
    (handler_exit_follows_ledger_answer sampleNewV4 failingApp sampleContext 0).2.2
      "unknown fund" rfl⟩

/-! ## C5: the fund id of a repeated creation -/

/-- C5 (as stated, refuted): the same creation request handled twice, the first
submission failing, reaches the ledger with two different fund ids. -/
theorem retried_creation_draws_new_fund_id :
    submissions (PostFundEndpoint sampleNewV4 failingApp sampleContext 0).events =
      [("CreateFund", ["4f1c2a9e-0000-4000-8000-000000000001", "Fund A", "2024-01-01"])] ∧
    submissions (PostFundEndpoint sampleNewV4 committingApp sampleContext
        (PostFundEndpoint sampleNewV4 failingApp sampleContext 0).draws).events =
      [("CreateFund", ["9a2e7b10-0000-4000-8000-000000000002", "Fund A", "2024-01-01"])] ∧
    "4f1c2a9e-0000-4000-8000-000000000001" ≠ "9a2e7b10-0000-4000-8000-000000000002" := by
  decide

/-- C5 (amended): the request carries no fund id.  Each run of the handler draws
the id from `uuid.NewV4()` and submits it; a second run for the same name and
date submits the next draw, whatever the ledger answered to the first. -/
theorem fund_id_drawn_per_run (NewV4 : Nat → String) (first second : AdminApp)
    (c : Context) (draws : Nat) (r : CreateFundRequest) (hbind : c.BindJSON = .ok r) :
    submissions (PostFundEndpoint NewV4 first c draws).events =
      [("CreateFund", [NewV4 draws, r.Name, r.InceptionDate])] ∧
    (PostFundEndpoint NewV4 first c draws).draws = draws + 1 ∧
    submissions (PostFundEndpoint NewV4 second c
        (PostFundEndpoint NewV4 first c draws).draws).events =
      [("CreateFund", [NewV4 (draws + 1), r.Name, r.InceptionDate])] := by
  have key : ∀ (a : AdminApp) (d : Nat),
      submissions (PostFundEndpoint NewV4 a c d).events =
        [("CreateFund", [NewV4 d, r.Name, r.InceptionDate])] ∧
      (PostFundEndpoint NewV4 a c d).draws = d + 1 := by
    intro a d
    cases hs : a.Contract.SubmitTransaction "CreateFund"
        [NewV4 d, r.Name, r.InceptionDate] with
    | error e =>
      rw [PostFundEndpoint, PostFundEndpointWith_error _ _ _ _ _ r e hbind hs]
      simp [validateCreateFundRequest, submissions]
    | ok p =>
      rw [PostFundEndpoint, PostFundEndpointWith_ok _ _ _ _ _ r p hbind hs]
      simp [validateCreateFundRequest, submissions]
  refine ⟨(key first draws).1, (key first draws).2, ?_⟩
  rw [(key first draws).2]
  exact (key second (draws + 1)).1

/-- C5 (amended) at `Fund A`, first against a failing, then a committing ledger. -/
theorem fund_id_drawn_per_run_witness :
    submissions (PostFundEndpoint sampleNewV4 failingApp sampleContext 0).events =
      [("CreateFund", [sampleNewV4 0, "Fund A", "2024-01-01"])] ∧
    (PostFundEndpoint sampleNewV4 failingApp sampleContext 0).draws = 0 + 1 ∧
    submissions (PostFundEndpoint sampleNewV4 committingApp sampleContext
        (PostFundEndpoint sampleNewV4 failingApp sampleContext 0).draws).events =
      [("CreateFund", [sampleNewV4 (0 + 1), "Fund A", "2024-01-01"])] :=
  fund_id_drawn_per_run sampleNewV4 failingApp committingApp sampleContext 0
    ⟨"Fund A", "2024-01-01"⟩ rfl

/-! ## C6: closing the gateway -/

/-- C6 (failing inputs): after `gateway.Connect` has succeeded, a `GetNetwork`
error and a `nil` contract each end `main` through `log.Fatalf`, and the
deferred `gw.Close()` is never called; it is called, once, when `main`
returns. -/
theorem main_fatal_after_connect_never_closes :
    (Event.connect ccpPath "appUser" ∈ (main noChannelEnv).events ∧
      (main noChannelEnv).exit = .osExit 1 ∧
      (main noChannelEnv).events.count .gwClose = 0) ∧
    (Event.connect ccpPath "appUser" ∈ (main noContractEnv).events ∧
      (main noContractEnv).exit = .osExit 1 ∧
      (main noContractEnv).events.count .gwClose = 0) ∧
    ((main sampleEnv).exit = .returned ∧
      (main sampleEnv).events.count .gwClose = 1) := by
  decide

/-! ## C7: start-up failures -/

/-- C7: if setting the environment variable, creating the wallet, populating the
wallet (attempted when the wallet lacks `appUser`), connecting the gateway,
resolving the channel or resolving the contract fails, `main` ends the process
with `os.Exit(1)` and `router.Run` is never reached. -/
theorem main_startup_failure_aborts (env : Env)
    (hfail : env.SetenvErr ≠ none ∨
      (∃ err, env.NewFileSystemWallet = .error err) ∨
      (∃ w, env.NewFileSystemWallet = .ok w ∧ w.Exists "appUser" = false ∧
        (populateWallet env.host w).err ≠ none) ∨
      env.ConnectErr ≠ none ∨
      env.GetNetworkErr ≠ none ∨
      env.GetContract = none) :
    (main env).exit = .osExit 1 ∧ Event.routerRun ∉ (main env).events := by
  unfold main
  cases hset : env.SetenvErr with
  | some e => simp
  | none =>
    cases hw : env.NewFileSystemWallet with
    | error e => simp
    | ok w =>
      have hprov := routerRun_not_mem_mainProvision env.host w
      cases hp : (mainProvision env.host w).err with
      | some e => simpa [hp] using hprov
      | none =>
        cases hc : env.ConnectErr with
        | some e => simpa [hp, hc] using hprov
        | none =>
          cases hn : env.GetNetworkErr with
          | some e => simpa [hp, hc, mainConnected, hn] using hprov
          | none =>
            cases hg : env.GetContract with
            | none => simpa [hp, hc, mainConnected, hn, hg] using hprov
            | some contract =>
              exfalso
              rcases hfail with h | ⟨e, h⟩ | ⟨w2, h1, h2, h3⟩ | h | h | h
              · exact h hset
              · rw [hw] at h; cases h
              · rw [hw] at h1
                cases h1
                apply h3
                simpa [mainProvision, h2] using hp
              · exact h hc
              · exact h hn
              · rw [hg] at h; cases h

/-- C7 at an environment whose channel cannot be resolved. -/
theorem main_startup_failure_aborts_witness :
    (main noChannelEnv).exit = .osExit 1 ∧
      Event.routerRun ∉ (main noChannelEnv).events :=
  main_startup_failure_aborts noChannelEnv
    (Or.inr (Or.inr (Or.inr (Or.inr (Or.inl (by decide))))))

/-! ## C8: the keystore listing -/

/-- C8: when the keystore listing has no entry or more than one, `populateWallet`
returns an error, leaves the wallet as it was, never calls `wallet.Put`, and
reads no file other than the certificate (no key file is picked). -/
theorem populateWallet_rejects_ambiguous_keystore (h : Host) (wallet : Wallet)
    (files : List String) (hdir : h.ReadDir keyDir = .ok files)
    (hcount : files.length = 0 ∨ 1 < files.length) :
    (populateWallet h wallet).err ≠ none ∧
    (populateWallet h wallet).wallet = wallet ∧
    (∀ label identity, Event.walletPut label identity ∉ (populateWallet h wallet).events) ∧
    (∀ path, Event.readFile path ∈ (populateWallet h wallet).events → path = certPath) := by
  have hlen : files.length ≠ 1 := by omega
  unfold populateWallet
  cases hc : h.ReadFile certPath with
  | error e => simp
  | ok cert => simp [hdir, hlen]

/-- C8 at an empty keystore and at a keystore with two entries. -/
theorem populateWallet_rejects_ambiguous_keystore_witness :
    ((populateWallet (sampleHost []) ⟨[]⟩).err ≠ none ∧
      (populateWallet (sampleHost []) ⟨[]⟩).wallet = ⟨[]⟩ ∧
      (∀ label identity,
        Event.walletPut label identity ∉ (populateWallet (sampleHost []) ⟨[]⟩).events) ∧
      (∀ path, Event.readFile path ∈ (populateWallet (sampleHost []) ⟨[]⟩).events →
        path = certPath)) ∧
    ((populateWallet (sampleHost ["a_sk", "b_sk"]) ⟨[]⟩).err ≠ none ∧
      (populateWallet (sampleHost ["a_sk", "b_sk"]) ⟨[]⟩).wallet = ⟨[]⟩ ∧
      (∀ label identity, Event.walletPut label identity ∉
        (populateWallet (sampleHost ["a_sk", "b_sk"]) ⟨[]⟩).events) ∧
      (∀ path, Event.readFile path ∈
        (populateWallet (sampleHost ["a_sk", "b_sk"]) ⟨[]⟩).events → path = certPath)) :=
  ⟨populateWallet_rejects_ambiguous_keystore (sampleHost []) ⟨[]⟩ [] rfl
      (Or.inl rfl),
    populateWallet_rejects_ambiguous_keystore (sampleHost ["a_sk", "b_sk"]) ⟨[]⟩
      ["a_sk", "b_sk"] rfl (Or.inr (by decide))⟩

/-! ## C9: provisioning twice -/

/-- C9: if the wallet already holds `appUser`, the provisioning step of `main`
only asks `wallet.Exists`: `populateWallet` is not called, nothing is read and
the wallet is unchanged.  Hence when a first run of the step succeeds, a second
run on the wallet it leaves reads no credential, whatever the credential source
then holds, and the two runs together read credentials no more often than the
first alone. -/
theorem mainProvision_idempotent (h again : Host) (wallet : Wallet) :
    (wallet.Exists "appUser" = true →
      mainProvision h wallet = ⟨none, wallet, [.walletExists "appUser"]⟩) ∧
    ((mainProvision h wallet).err = none →
      mainProvision again (mainProvision h wallet).wallet =
        ⟨none, (mainProvision h wallet).wallet, [.walletExists "appUser"]⟩ ∧
      ((mainProvision h wallet).events ++
          (mainProvision again (mainProvision h wallet).wallet).events).countP
          Event.isCredentialRead =
        (mainProvision h wallet).events.countP Event.isCredentialRead) := by
  have skip : ∀ (g : Host) (w : Wallet), w.Exists "appUser" = true →
      mainProvision g w = ⟨none, w, [.walletExists "appUser"]⟩ := by
    intro g w hw
    simp [mainProvision, hw]
  refine ⟨skip h wallet, fun hok => ?_⟩
  have hex : (mainProvision h wallet).wallet.Exists "appUser" = true := by
    cases hw : wallet.Exists "appUser" with
    | true => rw [skip h wallet hw]; exact hw
    | false =>
      have hp : (populateWallet h wallet).err = none := by
        simpa [mainProvision, hw] using hok
      simpa [mainProvision, hw] using populateWallet_stores_appUser h wallet hp
  refine ⟨skip again _ hex, ?_⟩
  rw [skip again _ hex]
  simp [List.countP_append, Event.isCredentialRead]

/-- C9 at a wallet that holds `appUser`, and at an empty wallet provisioned from a
keystore with one key and then provisioned again from an empty keystore. -/
theorem mainProvision_idempotent_witness :
    mainProvision (sampleHost []) provisionedWallet =
      ⟨none, provisionedWallet, [.walletExists "appUser"]⟩ ∧
    (mainProvision (sampleHost []) (mainProvision (sampleHost ["priv_sk"]) ⟨[]⟩).wallet =
        ⟨none, (mainProvision (sampleHost ["priv_sk"]) ⟨[]⟩).wallet,
          [.walletExists "appUser"]⟩ ∧
      ((mainProvision (sampleHost ["priv_sk"]) ⟨[]⟩).events ++
          (mainProvision (sampleHost [])
            (mainProvision (sampleHost ["priv_sk"]) ⟨[]⟩).wallet).events).countP
          Event.isCredentialRead =
        (mainProvision (sampleHost ["priv_sk"]) ⟨[]⟩).events.countP
          Event.isCredentialRead) :=
  ⟨(mainProvision_idempotent (sampleHost []) (sampleHost []) provisionedWallet).1
      (by decide),
    (mainProvision_idempotent (sampleHost ["priv_sk"]) (sampleHost []) ⟨[]⟩).2
      (by decide)⟩

end FundAdmin
